import Mathlib

/-!
Verification of the carga_slack reporting pipeline: a shallow embedding of
the deduplication ledger (`src/data_manager.py`), the cell-value normalizer
(`clean_value` in `src/main.py` and `src/google_sheets_processor.py`), the
sheet reader's row construction (`GoogleSheetsProcessor.read_data`), the
date-row locator and worksheet selection in `src/main.py`, the per-channel
aggregation fold, and the margin alert tiers (`get_mc_emoji`,
`check_mc_alert`).

Python dictionaries holding string data are modelled as association lists
from `String` keys to `String` values; Python `None` is `Option.none`;
machine floats appearing only through `to_float`-parsed sheet cells are
modelled as exact rationals (`ℚ`), which preserves every comparison and
arithmetic identity the claims are about.
-/

namespace CargaSlack

/-- A Python record dictionary (string keys to string values), as produced by
`read_data` / `extract_titles_and_fields` and stored in the ledger. -/
abbrev Rec := List (String × String)

/-- Python `record.get(k)`: first binding of key `k`, `none` when absent. -/
def dictGet (r : Rec) (k : String) : Option String :=
  (r.find? (fun p => p.1 == k)).map (·.2)

/-- Python `record.get(k, d)`: lookup with default for an absent key. -/
def dictGetD (r : Rec) (k : String) (d : String) : String :=
  (dictGet r k).getD d

/-! ### Value normalizer: `clean_value` (src/main.py lines 44-47 and
`GoogleSheetsProcessor.clean_value`, identical bodies) -/

/-- The list `[None, '', '#DIV/0!', '#N/A', '#VALUE!', '#REF!', '#NAME?']`
against which `clean_value` tests membership. -/
def error_tokens : List (Option String) :=
  [none, some "", some "#DIV/0!", some "#N/A", some "#VALUE!", some "#REF!", some "#NAME?"]

/-- `clean_value(val)`: recognized spreadsheet error tokens, the empty
string and `None` map to `'0,00'`; every other value is returned unchanged. -/
def clean_value (val : Option String) : Option String :=
  if val ∈ error_tokens then some "0,00" else val

/-! ### Deduplication ledger (`src/data_manager.py`)

The ledger state visible to `is_record_processed` / `mark_as_processed` is a
mapping from group title to the list of records stored under that title;
`mark_as_processed` reads the state, possibly appends, and saves.  The
underlying persisted file is modelled by `StoredData`: it may be corrupt
(a `json.JSONDecodeError` / `FileNotFoundError` on read), an old flat list
of records, or the current grouped mapping. -/

/-- Contents of the persisted ledger file as seen by `get_processed_data`. -/
inductive StoredData where
  | corrupt : StoredData
  | flat : List Rec → StoredData
  | grouped : (String → List Rec) → StoredData

/-- The grouping loop of `get_processed_data`: when the file holds an old
flat list, records are regrouped under `rec.get('titulo', 'OUTROS')`
preserving order (`grouped.setdefault(titulo, []).append(rec)`). -/
def group_records (recs : List Rec) : String → List Rec :=
  recs.foldl
    (fun grouped rec => fun t =>
      if t == dictGetD rec "titulo" "OUTROS" then grouped t ++ [rec] else grouped t)
    (fun _ => [])

/-- `DataManager.get_processed_data`: corrupt or missing storage yields the
empty mapping (logged, not raised); a flat list is migrated by grouping;
a grouped mapping is returned as-is. -/
def get_processed_data : StoredData → (String → List Rec)
  | .corrupt => fun _ => []
  | .flat recs => group_records recs
  | .grouped g => g

/-- `DataManager.is_record_processed(record, key_field)`: looks up the
record's title group and scans it for an entry whose `key_field` value
equals the record's. -/
def is_record_processed (stored : StoredData) (record : Rec) (key_field : String) : Bool :=
  (get_processed_data stored (dictGetD record "titulo" "OUTROS")).any
    (fun e => dictGet e key_field == dictGet record key_field)

/-- `DataManager.mark_as_processed(record, key_field)` acting on the ledger
mapping: if the record's title group already holds an entry with the same
`key_field` value the call returns the ledger unchanged (no save);
otherwise the record is appended to its group and the result saved. -/
def mark_as_processed (ledger : String → List Rec) (record : Rec) (key_field : String) :
    String → List Rec :=
  if (ledger (dictGetD record "titulo" "OUTROS")).any
      (fun e => dictGet e key_field == dictGet record key_field) then
    ledger
  else
    fun t =>
      if t == dictGetD record "titulo" "OUTROS" then
        ledger (dictGetD record "titulo" "OUTROS") ++ [record]
      else ledger t

/-! ### String utilities mirroring the Python primitives

All definitions recurse structurally over `List Char` so that every concrete
instance reduces inside the kernel. -/

/-- Python `str.strip()`: drop leading and trailing whitespace. -/
def pyStrip (s : String) : String :=
  String.mk (((s.data.dropWhile Char.isWhitespace).reverse.dropWhile Char.isWhitespace).reverse)

/-- Python `pat in s`: substring containment. -/
def charsContain (pat : List Char) : List Char → Bool
  | [] => pat.isEmpty
  | c :: t => pat.isPrefixOf (c :: t) || charsContain pat t

/-- Python `pat in s` on strings. -/
def strContains (s pat : String) : Bool :=
  charsContain pat.data s.data

/-- Accumulating decimal reader: fails on any non-digit character. -/
def digitsToNatAux : List Char → Nat → Option Nat
  | [], acc => some acc
  | c :: cs, acc =>
    if c.isDigit then digitsToNatAux cs (acc * 10 + (c.toNat - '0'.toNat)) else none

/-- Reads a nonempty all-digit character list as a natural number. -/
def parseNatChars (cs : List Char) : Option Nat :=
  if cs.isEmpty then none else digitsToNatAux cs 0

/-- Python `int(s)`: strips whitespace, accepts an optional sign followed by
decimal digits, raises (here: `none`) otherwise. -/
def pyInt (s : String) : Option Int :=
  match (pyStrip s).data with
  | '-' :: rest => (parseNatChars rest).map (fun n => -(n : Int))
  | '+' :: rest => (parseNatChars rest).map (fun n => (n : Int))
  | cs => (parseNatChars cs).map (fun n => (n : Int))

/-- Python `str.split` / `re.split` on a character class: cut the character
list at every separator, keeping empty fields. -/
def splitCharsAux (p : Char → Bool) : List Char → List Char → List (List Char)
  | [], acc => [acc.reverse]
  | c :: cs, acc =>
    if p c then acc.reverse :: splitCharsAux p cs [] else splitCharsAux p cs (c :: acc)

/-- Split a string at every character satisfying `p`, keeping empty fields
(matching the Python slash-or-dash `re.split` when `p` accepts `/` and `-`). -/
def splitChars (s : String) (p : Char → Bool) : List String :=
  (splitCharsAux p s.data []).map String.mk

/-- `re.sub(r'\s+', '', s)`: remove every whitespace character. -/
def removeWhitespace (s : String) : String :=
  String.mk (s.data.filter (fun c => !c.isWhitespace))

/-! ### `datetime.strptime` for the six date formats of `main.py`

CPython's `_strptime` matches `%d` against one or two digits valued 1-31,
`%m` against one or two digits valued 1-12, `%Y` against exactly four digits
and `%y` against exactly two digits (00-68 meaning 2000-2068, 69-99 meaning
1969-1999); the resulting `datetime` constructor additionally rejects a day
beyond the end of the month (the year defaults to 1900 when the format has
no year field).  Only day and month are consumed by the comparison in
`main.py`, so the parsers below return the `(day, month)` pair. -/

/-- A digit field of `minLen`-`maxLen` digits whose value lies in `[lo, hi]`. -/
def parseDigits (s : String) (minLen maxLen lo hi : Nat) : Option Nat :=
  if minLen ≤ s.data.length && s.data.length ≤ maxLen && s.data.all Char.isDigit then
    match parseNatChars s.data with
    | some n => if lo ≤ n && n ≤ hi then some n else none
    | none => none
  else none

/-- Gregorian leap year, as `datetime` uses. -/
def isLeap (y : Nat) : Bool :=
  y % 4 == 0 && (y % 100 != 0 || y % 400 == 0)

/-- Days in month `m` of year `y`, as validated by the `datetime` constructor. -/
def daysInMonth (y m : Nat) : Nat :=
  if m == 2 then (if isLeap y then 29 else 28)
  else if m == 4 || m == 6 || m == 9 || m == 11 then 30
  else 31

/-- `strptime(s, "%d<sep>%m")` reduced to its `(day, month)` result; the
implicit year is 1900. -/
def strptime_dm (sep : Char) (s : String) : Option (Nat × Nat) :=
  match splitChars s (· == sep) with
  | [ds, ms] =>
    match parseDigits ds 1 2 1 31, parseDigits ms 1 2 1 12 with
    | some d, some m => if d ≤ daysInMonth 1900 m then some (d, m) else none
    | _, _ => none
  | _ => none

/-- `strptime(s, "%d<sep>%m<sep>%Y")` (`yearLen = 4`) or the two-digit-year
variant (`yearLen = 2`), reduced to its `(day, month)` result. -/
def strptime_dmy (sep : Char) (yearLen : Nat) (s : String) : Option (Nat × Nat) :=
  match splitChars s (· == sep) with
  | [ds, ms, ys] =>
    match parseDigits ds 1 2 1 31, parseDigits ms 1 2 1 12,
        parseDigits ys yearLen yearLen 0 9999 with
    | some d, some m, some yRaw =>
      let y := if yearLen == 2 then (if yRaw ≤ 68 then 2000 + yRaw else 1900 + yRaw) else yRaw
      if d ≤ daysInMonth y m then some (d, m) else none
    | _, _, _ => none
  | _ => none

/-- The fixed ordered format list of `main.py`:
`["%d/%m", "%d/%m/%Y", "%d/%m/%y", "%d-%m", "%d-%m-%Y", "%d-%m-%y"]`. -/
def date_formats : List (String → Option (Nat × Nat)) :=
  [strptime_dm '/', strptime_dmy '/' 4, strptime_dmy '/' 2,
   strptime_dm '-', strptime_dmy '-' 4, strptime_dmy '-' 2]

/-! ### Row locator (`main.py` lines 754-786) -/

/-- A normalized sheet record as built by `read_data` (keys `Data`,
`Investimento`, `Receita`, `ROAS Geral`, `MC Geral`). -/
structure NormalizedRecord where
  Data : String
  Investimento : String
  Receita : String
  ROAS_Geral : String
  MC_Geral : String
deriving DecidableEq

/-- The per-row matching policy: an empty date cell is skipped; otherwise
the stripped cell is compared for exact string equality with the target,
then each of the six date formats is tried on the whitespace-free cell and
day+month compared against `strptime(target, "%d/%m")`, and finally the
cell is split on `/` or `-` and its first two fields read with `int` and
compared against the target's day and month. -/
def date_matches (data_val current_date : String) : Bool :=
  if data_val == "" then false
  else
    let s := pyStrip data_val
    if s == current_date then true
    else if date_formats.any (fun f =>
        match f (removeWhitespace s), strptime_dm '/' current_date with
        | some (d, m), some (td, tm) => d == td && m == tm
        | _, _ => false) then true
    else
      match splitChars s (fun c => c == '/' || c == '-') with
      | p0 :: p1 :: _ =>
        match pyInt p0, pyInt p1, strptime_dm '/' current_date with
        | some d, some m, some (td, tm) => d == (td : Int) && m == (tm : Int)
        | _, _, _ => false
      | _ => false

/-- `for r in reversed(records): ... if matched: current_record = r; break`:
the first match in reverse scan order wins. -/
def locate (records : List NormalizedRecord) (current_date : String) :
    Option NormalizedRecord :=
  records.reverse.find? (fun r => date_matches r.Data current_date)

/-! ### Source reader row construction (`GoogleSheetsProcessor.read_data`,
lines 138-154) -/

/-- The blank-row filter
`[row for row in rows if any(cell.strip() for cell in row)]`: keep a row iff
some cell is non-blank after stripping. -/
def filter_blank_rows (rows : List (List String)) : List (List String) :=
  rows.filter (fun row => row.any (fun cell => pyStrip cell != ""))

/-- Python `row[idx] if len(row) > idx else ''`. -/
def rowGetD (row : List String) (i : Nat) : String :=
  row.getD i ""

/-- The body of the record loop in `read_data`: a record is built only when
`len(row) > max(investimento_idx, receita_idx, roas_idx, mc_idx)`; under
that guard every per-field bound check succeeds, so each field is the cell
at its configured index (`Data` is `row[0]`). -/
def row_to_record (investimento_idx receita_idx roas_idx mc_idx : Nat)
    (row : List String) : Option NormalizedRecord :=
  if max (max investimento_idx receita_idx) (max roas_idx mc_idx) < row.length then
    some
      { Data := rowGetD row 0
        Investimento := rowGetD row investimento_idx
        Receita := rowGetD row receita_idx
        ROAS_Geral := rowGetD row roas_idx
        MC_Geral := rowGetD row mc_idx }
  else none

/-- The record list produced by `read_data` from the data rows below the
header: blank rows are filtered out, then each remaining row yields a record
exactly when it passes the max-index length guard. -/
def read_data_records (investimento_idx receita_idx roas_idx mc_idx : Nat)
    (rows : List (List String)) : List NormalizedRecord :=
  (filter_blank_rows rows).filterMap
    (row_to_record investimento_idx receita_idx roas_idx mc_idx)

/-! ### Worksheet selection for the current period (`main.py` lines 711-724) -/

/-- A worksheet tab as returned by `get_sheet_ids`. -/
structure SheetTab where
  name : String
  id : String
deriving DecidableEq

/-- The fixed Portuguese month-name list scanned by `main.py`. -/
def month_names : List String :=
  ["Janeiro", "Fevereiro", "Março", "Abril", "Maio", "Junho",
   "Julho", "Agosto", "Setembro", "Outubro", "Novembro", "Dezembro"]

/-- The inner month loop: the first month name (in list order) contained in
the title determines `mes_num`, and the loop breaks there; the 1-based
number of that month is returned, or `none` when no month name occurs. -/
def find_month_aux (name : String) : List String → Nat → Option Nat
  | [], _ => none
  | mes :: rest, i =>
    if strContains name mes then some i else find_month_aux name rest (i + 1)

/-- Whether a tab title is selected for the current period: its first-found
month name must be the current month and the title must contain the decimal
rendering of the current year. -/
def sheet_is_current_month (name : String) (current_month current_year : Nat) : Bool :=
  match find_month_aux name month_names 1 with
  | some mesNum => mesNum == current_month && strContains name (toString current_year)
  | none => false

/-- `mes_vigente_sheets`: the tabs selected for the period, or the first
available tab as a fallback when none is selected and tabs exist. -/
def mes_vigente_sheets (sheets : List SheetTab) (current_month current_year : Nat) :
    List SheetTab :=
  let sel := sheets.filter (fun s => sheet_is_current_month s.name current_month current_year)
  if sel.isEmpty && !sheets.isEmpty then sheets.take 1 else sel

/-! ### Channel aggregation (`main.py` lines 799-812 and 872-874) -/

/-- `is_dollar_value(value_str)`: the stripped value contains `$` but not
the two-character sequence `R$`. -/
def is_dollar_value (value : String) : Bool :=
  strContains (pyStrip value) "$" && !strContains (pyStrip value) "R$"

/-- The per-channel running totals mutated inside the site loop. -/
structure AggregateTotals where
  investimento : ℚ
  receita_real : ℚ
  receita_dolar : ℚ
  mc : ℚ
  roas_lidos : List ℚ
deriving DecidableEq

/-- The all-zero accumulator the channel loop starts from. -/
def emptyTotals : AggregateTotals :=
  { investimento := 0, receita_real := 0, receita_dolar := 0, mc := 0, roas_lidos := [] }

/-- One site's current-date contribution: `receita_str` is the cleaned
revenue cell (used for currency routing via `is_dollar_value`), and the
numeric fields carry the `to_float`-parsed values the code accumulates. -/
structure SiteResult where
  receita_str : String
  investimento : ℚ
  receita : ℚ
  roas : ℚ
  mc : ℚ
deriving DecidableEq

/-- The fold body of the site loop: investment and margin are summed,
revenue goes to the dollar accumulator iff `is_dollar_value(receita)` and
to the real accumulator otherwise, and the site's ROAS value is appended to
the `roas_lidos` sample list. -/
def fold_site (t : AggregateTotals) (r : SiteResult) : AggregateTotals :=
  { investimento := t.investimento + r.investimento
    receita_real :=
      if is_dollar_value r.receita_str then t.receita_real else t.receita_real + r.receita
    receita_dolar :=
      if is_dollar_value r.receita_str then t.receita_dolar + r.receita else t.receita_dolar
    mc := t.mc + r.mc
    roas_lidos := t.roas_lidos ++ [r.roas] }

/-- `roas_medio = sum(roas_lidos) / len(roas_lidos) if roas_lidos else 0.0`. -/
def roas_medio (samples : List ℚ) : ℚ :=
  if samples.isEmpty then 0 else samples.sum / (samples.length : ℚ)

/-! ### Margin alert tiers (`get_mc_emoji`, `check_mc_alert` in `main.py`) -/

/-- The threshold chain of `get_mc_emoji` applied to the parsed margin
number: below -100 critical, then warning below 0, neutral up to 100,
positive up to 1000, strongly positive above 1000. -/
def get_mc_emoji_num (mc_num : ℚ) : String :=
  if mc_num < -100 then ":rotating_light:"
  else if mc_num < 0 then ":warning:"
  else if mc_num ≤ 100 then ":moneybag:"
  else if mc_num ≤ 1000 then ":star-struck:"
  else ":money_with_wings:"

/-- The routing decision of `check_mc_alert`: an alert is sent to the
dedicated `Alert` channel exactly when the margin is below -100. -/
def check_mc_alert_triggers (mc_value : ℚ) : Bool :=
  decide (mc_value < -100)

/-! ## Theorems -/

/-- Claim C3: every recognized spreadsheet error token (`#DIV/0!`, `#N/A`,
`#VALUE!`, `#REF!`, `#NAME?`), the empty string and the absent (`None`)
value are normalized by `clean_value` to the canonical locale-formatted
zero `'0,00'`, never to a failure. -/
theorem clean_value_zero_on_errors (val : Option String) (h : val ∈ error_tokens) :
    clean_value val = some "0,00" := by
  simp [clean_value, h]

/-- Witness for C3: `clean_value` at the concrete error token `#DIV/0!`. -/
theorem clean_value_zero_on_errors_witness :
    clean_value (some "#DIV/0!") = some "0,00" :=
  clean_value_zero_on_errors (some "#DIV/0!") (by decide)

/-- Claim C10: `clean_value` is idempotent — its canonical zero output
`'0,00'` is not itself a recognized error/empty input, and every other
value passes through unchanged, so a second application is a no-op. -/
theorem clean_value_idempotent (val : Option String) :
    clean_value (clean_value val) = clean_value val := by
  by_cases h : val ∈ error_tokens
  · simp [clean_value, h]
  · simp [clean_value, h]

/-- Claim C1: `mark_as_processed` is idempotent — marking the same record
(same group title, same `key_field` value) a second time returns the ledger
produced by the first call unchanged: in particular the group's entry list
has the same length after the second call as after the first, and the
originally stored payload is neither duplicated nor overwritten. -/
theorem mark_as_processed_idempotent (ledger : String → List Rec) (record : Rec)
    (key_field : String) :
    mark_as_processed (mark_as_processed ledger record key_field) record key_field
      = mark_as_processed ledger record key_field ∧
    ∀ t, (mark_as_processed (mark_as_processed ledger record key_field) record key_field t).length
      = (mark_as_processed ledger record key_field t).length := by
  have main :
      mark_as_processed (mark_as_processed ledger record key_field) record key_field
        = mark_as_processed ledger record key_field := by
    by_cases h : (ledger (dictGetD record "titulo" "OUTROS")).any
        (fun e => dictGet e key_field == dictGet record key_field)
    · have e1 : mark_as_processed ledger record key_field = ledger := by
        rw [mark_as_processed, if_pos h]
      rw [e1]
      exact e1
    · have e1 : mark_as_processed ledger record key_field
          = fun t => if t == dictGetD record "titulo" "OUTROS" then
              ledger (dictGetD record "titulo" "OUTROS") ++ [record] else ledger t := by
        rw [mark_as_processed, if_neg h]
      have hc : ((mark_as_processed ledger record key_field
            (dictGetD record "titulo" "OUTROS")).any
          (fun e => dictGet e key_field == dictGet record key_field)) = true := by
        rw [e1]
        simp [List.any_append]
      conv_lhs => rw [mark_as_processed]
      rw [if_pos hc]
  exact ⟨main, fun t => by rw [main]⟩

/-- Claim C9: a corrupted or unreadable ledger store reads back as the
empty ledger (every group empty) rather than raising, a subsequent
`is_record_processed` query on any record then returns `false`, and a
stored flat list is transparently migrated into the grouped-by-title
structure: each title's group holds exactly the flat records whose
`titulo` (defaulting to `OUTROS`) is that title, in order. -/
theorem ledger_corrupt_and_migration (record : Rec) (key_field : String)
    (recs : List Rec) (t : String) :
    get_processed_data .corrupt t = [] ∧
    is_record_processed .corrupt record key_field = false ∧
    get_processed_data (.flat recs) t
      = recs.filter (fun r => dictGetD r "titulo" "OUTROS" == t) := by
  refine ⟨rfl, rfl, ?_⟩
  show group_records recs t = _
  have aux : ∀ (l : List Rec) (acc : String → List Rec),
      (l.foldl (fun grouped rec => fun u =>
          if u == dictGetD rec "titulo" "OUTROS" then grouped u ++ [rec] else grouped u) acc) t
        = acc t ++ l.filter (fun r => dictGetD r "titulo" "OUTROS" == t) := by
    intro l
    induction l with
    | nil => intro acc; simp
    | cons r l ih =>
      intro acc
      by_cases h : dictGetD r "titulo" "OUTROS" = t
      · simp only [List.foldl_cons, ih, List.filter_cons]
        simp [h]
      · simp only [List.foldl_cons, ih, List.filter_cons]
        have h1 : (t == dictGetD r "titulo" "OUTROS") = false := by
          simp [beq_iff_eq]; exact fun hh => h hh.symm
        have h2 : (dictGetD r "titulo" "OUTROS" == t) = false := by
          simp [beq_iff_eq]; exact h
        simp [h1, h2]
  simpa [group_records] using aux recs (fun _ => [])

/-- Helper: `find?` skips a prefix on which the predicate is everywhere false. -/
theorem find?_append_of_none {α : Type} {p : α → Bool} {l₁ : List α} (l₂ : List α)
    (h : ∀ x ∈ l₁, p x = false) : (l₁ ++ l₂).find? p = l₂.find? p := by
  induction l₁ with
  | nil => rfl
  | cons a l ih =>
    have ha : p a = false := h a (List.mem_cons_self a l)
    simp only [List.cons_append, List.find?_cons, ha]
    exact ih (fun x hx => h x (List.mem_cons_of_mem a hx))

/-- Claim C4: `locate` scans rows in reverse order and the first match in
reverse-scan order wins — whenever a matching row has no matching row after
it in the original sequence (in particular when duplicate-date rows exist
and it is the latest of them), `locate` returns exactly that row. -/
theorem locate_latest_match_wins (xs ys : List NormalizedRecord) (r : NormalizedRecord)
    (d : String) (hr : date_matches r.Data d = true)
    (hys : ∀ y ∈ ys, date_matches y.Data d = false) :
    locate (xs ++ r :: ys) d = some r := by
  unfold locate
  rw [List.reverse_append, List.reverse_cons]
  have h1 : ((ys.reverse ++ [r]) ++ xs.reverse).find? (fun q => date_matches q.Data d)
      = ([r] ++ xs.reverse).find? (fun q => date_matches q.Data d) := by
    rw [List.append_assoc]
    exact find?_append_of_none ([r] ++ xs.reverse)
      (fun y hy => hys y (List.mem_reverse.mp hy))
  rw [h1]
  simp [List.find?_cons, hr]

/-- Witness for C4: two rows share the date cell `05/10`; with target
`05/10`, `locate` returns the row appearing later in the sequence. -/
theorem locate_latest_match_wins_witness :
    locate [⟨"05/10", "1", "2", "3", "4"⟩, ⟨"05/10", "9", "8", "7", "6"⟩] "05/10"
      = some ⟨"05/10", "9", "8", "7", "6"⟩ :=
  locate_latest_match_wins [⟨"05/10", "1", "2", "3", "4"⟩] []
    ⟨"05/10", "9", "8", "7", "6"⟩ "05/10" (by decide) (by intro y hy; cases hy)

/-- Claim C5: a row whose date cell is `01/10` and the target date `1/10`
are different strings, so exact equality fails, but both reduce to day 1,
month 10 under the `%d/%m` pattern, the day/month comparison succeeds, and
`locate` selects the row. -/
theorem locate_day_month_fallback :
    ("01/10" == "1/10") = false ∧
    strptime_dm '/' "01/10" = some (1, 10) ∧
    strptime_dm '/' "1/10" = some (1, 10) ∧
    date_matches "01/10" "1/10" = true ∧
    locate [⟨"01/10", "R$ 10,00", "R$ 25,00", "2,5", "R$ 15,00"⟩] "1/10"
      = some ⟨"01/10", "R$ 10,00", "R$ 25,00", "2,5", "R$ 15,00"⟩ := by
  refine ⟨by decide, by decide, by decide, by decide, by decide⟩

/-- Counterexample to Claim C2 as stated: the row `["01/10", "R$ 10"]`
survives blank-row filtering, yet with configured indices 1, 2, 3, 4 (of
which 2, 3 and 4 are out of bounds) `read_data` produces no record at all —
the row is dropped by the `len(row) > max(...)` guard instead of yielding a
record with missing values for the out-of-bounds fields. -/
theorem read_data_drops_short_row :
    filter_blank_rows [["01/10", "R$ 10"]] = [["01/10", "R$ 10"]] ∧
    read_data_records 1 2 3 4 [["01/10", "R$ 10"]] = [] := by
  refine ⟨by decide, by decide⟩

/-- Helper: `filterMap` with a guarded constructor is `filter` then `map`. -/
theorem filterMap_guard {α β : Type} (p : α → Prop) [DecidablePred p] (g : α → β)
    (l : List α) :
    l.filterMap (fun a => if p a then some (g a) else none)
      = (l.filter (fun a => decide (p a))).map g := by
  induction l with
  | nil => rfl
  | cons a l ih =>
    by_cases h : p a
    · simp [List.filterMap_cons, List.filter_cons, h, ih]
    · simp [List.filterMap_cons, List.filter_cons, h, ih]

/-- Claim C2 amended: for a row kept after blank-row filtering, `read_data`
produces a normalized record (with `Data` from cell 0 and each field from
its configured column) exactly when the row's length exceeds the maximum
configured column index; a kept row whose length is at most that maximum is
dropped entirely — no record with missing values is produced for it — and
the reader's record list is precisely the guarded image of the kept rows. -/
theorem read_data_record_guard (investimento_idx receita_idx roas_idx mc_idx : Nat)
    (row : List String) (rows : List (List String)) :
    (max (max investimento_idx receita_idx) (max roas_idx mc_idx) < row.length →
      row_to_record investimento_idx receita_idx roas_idx mc_idx row
        = some
          { Data := rowGetD row 0
            Investimento := rowGetD row investimento_idx
            Receita := rowGetD row receita_idx
            ROAS_Geral := rowGetD row roas_idx
            MC_Geral := rowGetD row mc_idx }) ∧
    (row.length ≤ max (max investimento_idx receita_idx) (max roas_idx mc_idx) →
      row_to_record investimento_idx receita_idx roas_idx mc_idx row = none) ∧
    read_data_records investimento_idx receita_idx roas_idx mc_idx rows
      = ((filter_blank_rows rows).filter
          (fun r => decide
            (max (max investimento_idx receita_idx) (max roas_idx mc_idx) < r.length))).map
        (fun r =>
          { Data := rowGetD r 0
            Investimento := rowGetD r investimento_idx
            Receita := rowGetD r receita_idx
            ROAS_Geral := rowGetD r roas_idx
            MC_Geral := rowGetD r mc_idx }) := by
  refine ⟨fun h => by rw [row_to_record, if_pos h], fun h => by
    rw [row_to_record, if_neg (by omega)], ?_⟩
  unfold read_data_records row_to_record
  exact filterMap_guard _ _ _

/-- Witness for C2 amended: with all indices 1 the two-cell row
`["05/10", "2,5"]` passes the guard and yields the record whose four value
fields all read column 1, while with indices 1, 2, 3, 4 the same-shape row
`["01/10", "R$ 10"]` yields no record. -/
theorem read_data_record_guard_witness :
    row_to_record 1 1 1 1 ["05/10", "2,5"]
      = some ⟨"05/10", "2,5", "2,5", "2,5", "2,5"⟩ ∧
    row_to_record 1 2 3 4 ["01/10", "R$ 10"] = none :=
  ⟨(read_data_record_guard 1 1 1 1 ["05/10", "2,5"] []).1 (by decide),
   (read_data_record_guard 1 2 3 4 ["01/10", "R$ 10"] []).2.1 (by decide)⟩

/-- Counterexample to Claim C6 as stated: in October 2025 the tab
`"Janeiro e Outubro 2025"` contains both the current month's name
(`Outubro`) and the year (`2025`), so under the claim only it should be
read; but the month loop breaks at the first month name found in list
order (`Janeiro`, month 1 ≠ 10), so no tab is selected and the fallback
reads the first tab `"Setembro 2025"`, which does not match. -/
theorem mes_vigente_fallback_counterexample :
    strContains "Janeiro e Outubro 2025" "Outubro" = true ∧
    strContains "Janeiro e Outubro 2025" "2025" = true ∧
    strContains "Setembro 2025" "Outubro" = false ∧
    mes_vigente_sheets [⟨"Setembro 2025", "1"⟩, ⟨"Janeiro e Outubro 2025", "2"⟩] 10 2025
      = [⟨"Setembro 2025", "1"⟩] := by
  refine ⟨by decide, by decide, by decide, by decide⟩

/-- Helper: a successful first-month scan returns a position at or after the
start counter, and the month name at that position occurs in the title. -/
theorem find_month_aux_spec (name : String) :
    ∀ (l : List String) (i j : Nat), find_month_aux name l i = some j →
      i ≤ j ∧ strContains name (l.getD (j - i) "") = true := by
  intro l
  induction l with
  | nil => intro i j h; simp [find_month_aux] at h
  | cons mes rest ih =>
    intro i j h
    by_cases hc : strContains name mes
    · rw [find_month_aux, if_pos hc] at h
      obtain rfl : i = j := Option.some.inj h
      exact ⟨Nat.le_refl i, by simp [Nat.sub_self, hc]⟩
    · rw [find_month_aux, if_neg hc] at h
      obtain ⟨h1, h2⟩ := ih (i + 1) j h
      refine ⟨by omega, ?_⟩
      have hj : j - i = (j - (i + 1)) + 1 := by omega
      rw [hj]
      simpa using h2

/-- Claim C6 amended: worksheet selection restricts candidates to tabs whose
first-occurring month name (scanning the fixed January-to-December list in
order) is the current month and whose title contains the current four-digit
year; every tab so selected does contain the current month's name and the
year (so with tabs `Setembro 2025` and `Outubro 2025` in October 2025 only
`Outubro 2025` is read), and when no tab is selected the first available
tab is used as a fallback — even if some tab contains the current month's
name together with an earlier-listed month name. -/
theorem mes_vigente_selection (sheets : List SheetTab) (current_month current_year : Nat) :
    (sheets.filter (fun s => sheet_is_current_month s.name current_month current_year) ≠ [] →
      mes_vigente_sheets sheets current_month current_year
        = sheets.filter (fun s => sheet_is_current_month s.name current_month current_year)) ∧
    (∀ s : SheetTab, sheet_is_current_month s.name current_month current_year = true →
      strContains s.name (month_names.getD (current_month - 1) "") = true ∧
      strContains s.name (toString current_year) = true) ∧
    (sheets ≠ [] →
      sheets.filter (fun s => sheet_is_current_month s.name current_month current_year) = [] →
      mes_vigente_sheets sheets current_month current_year = sheets.take 1) := by
  refine ⟨fun h => ?_, fun s hs => ?_, fun hne hsel => ?_⟩
  · have hE : (sheets.filter
        (fun s => sheet_is_current_month s.name current_month current_year)).isEmpty = false := by
      rw [Bool.eq_false_iff]
      intro hcontra
      exact h (List.isEmpty_iff.mp hcontra)
    simp [mes_vigente_sheets, hE]
  · rw [sheet_is_current_month] at hs
    rcases hfind : find_month_aux s.name month_names 1 with _ | mesNum
    · rw [hfind] at hs; cases hs
    · rw [hfind] at hs
      have hnum : mesNum = current_month ∧ strContains s.name (toString current_year) = true := by
        have := hs
        simp only [Bool.and_eq_true, beq_iff_eq] at this
        exact this
      obtain ⟨rfl, hyear⟩ := hnum
      obtain ⟨hge, hmem⟩ := find_month_aux_spec s.name month_names 1 mesNum hfind
      exact ⟨hmem, hyear⟩
  · have hE : (sheets.filter
        (fun s => sheet_is_current_month s.name current_month current_year)).isEmpty = true := by
      rw [hsel]; rfl
    have hE2 : sheets.isEmpty = false := by
      rw [Bool.eq_false_iff]
      intro hcontra
      exact hne (List.isEmpty_iff.mp hcontra)
    simp [mes_vigente_sheets, hE, hE2, hsel]

/-- Witness for C6 amended (the claim's own scenario): with tabs
`Setembro 2025` and `Outubro 2025` in October 2025, selection reads only
the `Outubro 2025` tab. -/
theorem mes_vigente_selection_witness :
    mes_vigente_sheets [⟨"Setembro 2025", "1"⟩, ⟨"Outubro 2025", "2"⟩] 10 2025
      = [⟨"Outubro 2025", "2"⟩] := by
  have h := (mes_vigente_selection [⟨"Setembro 2025", "1"⟩, ⟨"Outubro 2025", "2"⟩] 10 2025).1
    (by decide)
  rw [h]
  decide

/-- Helper: folding the site loop appends each record's ROAS sample to the
accumulator's sample list in order. -/
theorem foldl_fold_site_roas (records : List SiteResult) :
    ∀ t : AggregateTotals,
      (List.foldl fold_site t records).roas_lidos
        = t.roas_lidos ++ records.map (fun r => r.roas) := by
  induction records with
  | nil => intro t; simp
  | cons r rest ih =>
    intro t
    rw [List.foldl_cons, ih (fold_site t r)]
    simp [fold_site]

/-- Claim C7: in the channel fold, a site's revenue goes to the local
accumulator when its value string lacks `$` or contains `R$`, and to the
foreign accumulator when it contains `$` but not `R$` (so both can end up
non-zero for one channel), while the finalized channel ROAS is the
arithmetic mean of the per-record ROAS samples — zero when there are no
samples — not a sum and not revenue divided by investment. -/
theorem fold_site_routing_and_mean :
    (∀ (t : AggregateTotals) (r : SiteResult),
      (strContains (pyStrip r.receita_str) "$" = false ∨
          strContains (pyStrip r.receita_str) "R$" = true) →
        (fold_site t r).receita_real = t.receita_real + r.receita ∧
        (fold_site t r).receita_dolar = t.receita_dolar) ∧
    (∀ (t : AggregateTotals) (r : SiteResult),
      strContains (pyStrip r.receita_str) "$" = true →
      strContains (pyStrip r.receita_str) "R$" = false →
        (fold_site t r).receita_dolar = t.receita_dolar + r.receita ∧
        (fold_site t r).receita_real = t.receita_real) ∧
    (∀ records : List SiteResult,
      roas_medio (List.foldl fold_site emptyTotals records).roas_lidos
        = if records = [] then 0
          else (records.map (fun r => r.roas)).sum / (records.length : ℚ)) := by
  refine ⟨fun t r h => ?_, fun t r h1 h2 => ?_, fun records => ?_⟩
  · have hd : is_dollar_value r.receita_str = false := by
      rcases h with h | h <;> simp [is_dollar_value, h]
    simp [fold_site, hd]
  · have hd : is_dollar_value r.receita_str = true := by
      simp [is_dollar_value, h1, h2]
    simp [fold_site, hd]
  · rw [foldl_fold_site_roas records emptyTotals]
    rcases records with _ | ⟨r, rest⟩
    · simp [emptyTotals, roas_medio]
    · simp only [emptyTotals, List.nil_append, roas_medio]
      simp

/-- Witness for C7: folding a site reporting `R$ 100,00` (local, revenue
100, ROAS 2) and a site reporting `$ 50.00` (foreign, revenue 50, ROAS 4)
leaves both revenue accumulators non-zero, and the finalized ROAS is the
mean 3 rather than the sum 6 or total revenue over total investment 5. -/
theorem fold_site_routing_and_mean_witness :
    (fold_site (fold_site emptyTotals ⟨"R$ 100,00", 10, 100, 2, 5⟩)
        ⟨"$ 50.00", 20, 50, 4, 7⟩).receita_real = 100 ∧
    (fold_site (fold_site emptyTotals ⟨"R$ 100,00", 10, 100, 2, 5⟩)
        ⟨"$ 50.00", 20, 50, 4, 7⟩).receita_dolar = 50 ∧
    roas_medio (List.foldl fold_site emptyTotals
        [⟨"R$ 100,00", 10, 100, 2, 5⟩, ⟨"$ 50.00", 20, 50, 4, 7⟩]).roas_lidos = 3 := by
  obtain ⟨hlocal, hdollar, hmean⟩ := fold_site_routing_and_mean
  have s1 := hlocal emptyTotals ⟨"R$ 100,00", 10, 100, 2, 5⟩ (Or.inr (by decide))
  have s2 := hdollar (fold_site emptyTotals ⟨"R$ 100,00", 10, 100, 2, 5⟩)
    ⟨"$ 50.00", 20, 50, 4, 7⟩ (by decide) (by decide)
  refine ⟨?_, ?_, ?_⟩
  · rw [s2.2, s1.1]
    norm_num [emptyTotals]
  · rw [s2.1, s1.2]
    norm_num [emptyTotals]
  · rw [hmean [⟨"R$ 100,00", 10, 100, 2, 5⟩, ⟨"$ 50.00", 20, 50, 4, 7⟩],
      if_neg (List.cons_ne_nil _ _)]
    norm_num

/-- Claim C8: the margin alert evaluation assigns exactly one tier by
thresholds — below -100 the critical tier (and exactly then the alert is
routed to the dedicated `Alert` destination), from -100 up to 0 the warning
tier, 0 to 100 the neutral tier, above 100 up to 1000 the positive tier,
and above 1000 the strongly positive tier. -/
theorem mc_tier_thresholds :
    (∀ mc : ℚ, mc < -100 →
      get_mc_emoji_num mc = ":rotating_light:" ∧ check_mc_alert_triggers mc = true) ∧
    (∀ mc : ℚ, -100 ≤ mc → mc < 0 →
      get_mc_emoji_num mc = ":warning:" ∧ check_mc_alert_triggers mc = false) ∧
    (∀ mc : ℚ, 0 ≤ mc → mc ≤ 100 → get_mc_emoji_num mc = ":moneybag:") ∧
    (∀ mc : ℚ, 100 < mc → mc ≤ 1000 → get_mc_emoji_num mc = ":star-struck:") ∧
    (∀ mc : ℚ, 1000 < mc → get_mc_emoji_num mc = ":money_with_wings:") ∧
    (∀ mc : ℚ, check_mc_alert_triggers mc = true ↔ mc < -100) := by
  refine ⟨fun mc h => ?_, fun mc h1 h2 => ?_, fun mc h1 h2 => ?_, fun mc h1 h2 => ?_,
    fun mc h => ?_, fun mc => ?_⟩
  · exact ⟨by rw [get_mc_emoji_num, if_pos h], by simp [check_mc_alert_triggers, h]⟩
  · refine ⟨?_, by simp [check_mc_alert_triggers]; linarith⟩
    rw [get_mc_emoji_num, if_neg (by linarith), if_pos h2]
  · rw [get_mc_emoji_num, if_neg (by linarith), if_neg (by linarith), if_pos h2]
  · rw [get_mc_emoji_num, if_neg (by linarith), if_neg (by linarith), if_neg (by linarith),
      if_pos h2]
  · rw [get_mc_emoji_num, if_neg (by linarith), if_neg (by linarith), if_neg (by linarith),
      if_neg (by linarith)]
  · simp [check_mc_alert_triggers]

/-- Witness for C8: margin -150 yields the critical tier and triggers the
alert routing, margin 50 the neutral tier, margin 1500 the top tier. -/
theorem mc_tier_thresholds_witness :
    get_mc_emoji_num (-150) = ":rotating_light:" ∧
    check_mc_alert_triggers (-150) = true ∧
    get_mc_emoji_num 50 = ":moneybag:" ∧
    get_mc_emoji_num 1500 = ":money_with_wings:" :=
  ⟨(mc_tier_thresholds.1 (-150) (by norm_num)).1,
   (mc_tier_thresholds.1 (-150) (by norm_num)).2,
   mc_tier_thresholds.2.2.1 50 (by norm_num) (by norm_num),
   mc_tier_thresholds.2.2.2.2.1 1500 (by norm_num)⟩

end CargaSlack
